import Mathlib

/-!
Shallow embedding of the Satel Integra Home Assistant integration
(repository torchtarget/ha_satel_integra, directory
custom_components/satel_integra), covering:

* the snapshot-diff handler `SatelIntegraBinarySensor._devices_updated`
  (binary_sensor.py, lines 148-155),
* the reactive temperature polling of motion zones
  `SatelIntegraBinarySensor.async_update` (binary_sensor.py, lines 164-228)
  together with its initial state from `__init__` (lines 118-130),
* the upfront capability discovery of `sensor.async_setup_entry` with its
  probe `test_zone_temperature` (sensor.py, lines 55-125), and
* the polling of a discovered sensor
  `SatelIntegraTemperatureSensor.async_update` (sensor.py, lines 158-184).

Python floats are modelled as rationals.  The answer the controller gives
to one `get_zone_temperature` call, as observed by the caller, is modelled
by `PollResult`.
-/

namespace SatelIntegra

/-- What one `get_zone_temperature` call yields to its caller: a numeric
reading, an explicit `None`, an `asyncio.TimeoutError`, or any other
exception (a connection-level transport error). -/
inductive PollResult where
  | reading (v : ℚ)
  | noReading
  | timeout
  | error
deriving DecidableEq, Repr

/-- Claim-side predicate: `r` is a numeric reading. -/
def PollResult.isReading : PollResult → Bool
  | .reading _ => true
  | _ => false

/-! ## Binary sensor: snapshot diff (`_devices_updated`) -/

/-- `SatelIntegraBinarySensor._devices_updated` for one device: the pushed
snapshot (a Python dict from device number to 0/1, modelled as an
association list) is consulted for this device number; when present and
the mapped boolean differs from the current `_attr_is_on`, the state is
replaced and `async_write_ha_state` is called.  Returns the new
`_attr_is_on` paired with whether a state write (downstream notification)
happened. -/
def devices_updated (device_number : ℕ) (zones : List (ℕ × ℕ)) (is_on : Bool) :
    Bool × Bool :=
  match zones.lookup device_number with
  | none => (is_on, false)
  | some v =>
    let new_state := v == 1
    if new_state != is_on then (new_state, true) else (is_on, false)

/-! ## Binary sensor: reactive temperature polling (`async_update`) -/

/-- The mutable fields of `SatelIntegraBinarySensor` that its
`async_update` reads or writes: `_attr_should_poll` and `_temperature`. -/
structure BinarySensorState where
  should_poll : Bool
  temperature : Option ℚ
deriving DecidableEq, Repr

/-- State set up by `SatelIntegraBinarySensor.__init__` for a polled
sensor (a motion-class zone): polling enabled, no temperature stored. -/
def BinarySensorState.init : BinarySensorState := ⟨true, none⟩

/-- `SatelIntegraBinarySensor.async_update`: return immediately when
polling is disabled; otherwise store a numeric reading; on an explicit
`None` or a timeout disable polling exactly when no reading has ever been
stored; swallow any other exception with only a log line. -/
def BinarySensorState.async_update (s : BinarySensorState) (r : PollResult) :
    BinarySensorState :=
  if !s.should_poll then s
  else
    match r with
    | .reading v => { s with temperature := some v }
    | .noReading =>
      if s.temperature = none then { s with should_poll := false } else s
    | .timeout =>
      if s.temperature = none then { s with should_poll := false } else s
    | .error => s

/-- Whether a call to `SatelIntegraBinarySensor.async_update` issues a
temperature query: the guard at the top returns before the query when
polling is disabled. -/
def BinarySensorState.async_update_queries (s : BinarySensorState) : Bool :=
  s.should_poll

/-! ## Temperature sensor platform: upfront discovery -/

/-- `test_zone_temperature` (sensor.py): probe one zone once with a 6 s
timeout and classify.  A numeric reading returns the subentry (modelled by
the zone number); an explicit `None`, a `TimeoutError`, and any other
exception are each caught inside the probe and return `None`. -/
def test_zone_temperature (zone_num : ℕ) (outcome : PollResult) : Option ℕ :=
  match outcome with
  | .reading _ => some zone_num
  | .noReading => none
  | .timeout => none
  | .error => none

/-- The stagger offsets of the discovery run: probe `i` first sleeps
`delay = i * stagger` (the source uses `stagger = 0.05` s). -/
def discovery_delays (n : ℕ) (stagger : ℚ) : List ℚ :=
  (List.range n).map (fun i : ℕ => (i : ℚ) * stagger)

/-- The `asyncio.gather` of all probes: one classification per zone, in
order.  `zs` pairs each zone number with the outcome its probe observes. -/
def discovery_results (zs : List (ℕ × PollResult)) : List (Option ℕ) :=
  zs.map (fun p => test_zone_temperature p.1 p.2)

/-- The zones for which `async_setup_entry` creates a
`SatelIntegraTemperatureSensor`: exactly the results that are a subentry
rather than `None` or an exception. -/
def temperature_sensors (zs : List (ℕ × PollResult)) : List ℕ :=
  (discovery_results zs).filterMap id

/-! ## Temperature sensor: recurring polling (`async_update`) -/

/-- The mutable fields of `SatelIntegraTemperatureSensor` that its
`async_update` touches, plus `_attr_should_poll`, which is a class
attribute fixed to `True` and never written. -/
structure TemperatureSensorState where
  native_value : Option ℚ
  available : Bool
  should_poll : Bool
deriving DecidableEq, Repr

/-- A freshly created `SatelIntegraTemperatureSensor`: no value yet,
available, polled. -/
def TemperatureSensorState.init : TemperatureSensorState := ⟨none, true, true⟩

/-- `SatelIntegraTemperatureSensor.async_update`: a numeric reading is
stored and marks the sensor available; an explicit `None` clears the
value while staying available; a timeout or any other exception marks the
sensor unavailable and keeps the stored value. -/
def TemperatureSensorState.async_update (s : TemperatureSensorState)
    (r : PollResult) : TemperatureSensorState :=
  match r with
  | .reading v => { s with native_value := some v, available := true }
  | .noReading => { s with native_value := none, available := true }
  | .timeout => { s with available := false }
  | .error => { s with available := false }

/-! ## Helper lemmas -/

/-- Once polling is disabled, `async_update` is the identity. -/
theorem BinarySensorState.async_update_of_disabled (s : BinarySensorState)
    (r : PollResult) (h : s.should_poll = false) : s.async_update r = s := by
  simp [BinarySensorState.async_update, h]

/-- Once polling is disabled, any sequence of poll outcomes leaves the
state unchanged. -/
theorem BinarySensorState.foldl_of_disabled (s : BinarySensorState)
    (h : s.should_poll = false) (rs : List PollResult) :
    rs.foldl BinarySensorState.async_update s = s := by
  induction rs with
  | nil => rfl
  | cons r rs ih =>
    simp only [List.foldl_cons, s.async_update_of_disabled r h, ih]

/-- One step preserves the invariant: if polling is off, then no reading
was ever stored. -/
theorem BinarySensorState.invariant_step (s : BinarySensorState)
    (r : PollResult) (h : s.should_poll = false → s.temperature = none) :
    (s.async_update r).should_poll = false →
      (s.async_update r).temperature = none := by
  cases hp : s.should_poll with
  | false => rw [s.async_update_of_disabled r hp]; exact h
  | true =>
    cases r with
    | reading v => simp [BinarySensorState.async_update, hp]
    | noReading =>
      by_cases ht : s.temperature = none <;>
        simp [BinarySensorState.async_update, hp, ht]
    | timeout =>
      by_cases ht : s.temperature = none <;>
        simp [BinarySensorState.async_update, hp, ht]
    | error => simp [BinarySensorState.async_update, hp]

/-- The invariant of `invariant_step` holds along any fold. -/
theorem BinarySensorState.foldl_invariant (rs : List PollResult) :
    ∀ s : BinarySensorState, (s.should_poll = false → s.temperature = none) →
      (rs.foldl BinarySensorState.async_update s).should_poll = false →
        (rs.foldl BinarySensorState.async_update s).temperature = none := by
  induction rs with
  | nil => intro s h; exact h
  | cons r rs ih =>
    intro s h
    exact ih (s.async_update r) (s.invariant_step r h)

/-- Once a reading is stored while polling, every later state still polls
and still stores some reading. -/
theorem BinarySensorState.foldl_keeps_polling (rs : List PollResult) :
    ∀ s : BinarySensorState, s.should_poll = true →
      (∃ v, s.temperature = some v) →
      (rs.foldl BinarySensorState.async_update s).should_poll = true ∧
        ∃ v, (rs.foldl BinarySensorState.async_update s).temperature = some v := by
  induction rs with
  | nil => intro s hp hv; exact ⟨hp, hv⟩
  | cons r rs ih =>
    intro s hp hv
    obtain ⟨v, hv⟩ := hv
    apply ih
    · cases r <;> simp [BinarySensorState.async_update, hp, hv]
    · cases r with
      | reading w => exact ⟨w, by simp [BinarySensorState.async_update, hp]⟩
      | noReading => exact ⟨v, by simp [BinarySensorState.async_update, hp, hv]⟩
      | timeout => exact ⟨v, by simp [BinarySensorState.async_update, hp, hv]⟩
      | error => exact ⟨v, by simp [BinarySensorState.async_update, hp, hv]⟩

/-! ## Claim theorems -/

/-- Claim C1: applying the same snapshot twice in a row notifies at most
once for any device: the handler writes state only when the mapped value
differs from the current `_attr_is_on`, so the second identical apply
produces no notification, and a snapshot entry equal to the current state
produces none either. -/
theorem snapshot_apply_idempotent (dn : ℕ) (zones : List (ℕ × ℕ))
    (is_on : Bool) :
    (devices_updated dn zones (devices_updated dn zones is_on).1).2 = false ∧
    (∀ v, zones.lookup dn = some v → (v == 1) = is_on →
      devices_updated dn zones is_on = (is_on, false)) := by
  constructor
  · cases h : zones.lookup dn with
    | none => simp [devices_updated, h]
    | some v =>
      cases hb : (v == 1) <;> cases is_on <;>
        simp [devices_updated, h, hb]
  · intro v hv hb
    simp [devices_updated, hv, hb]

/-- Witness for C1 at a concrete snapshot. -/
theorem snapshot_apply_idempotent_witness :
    devices_updated 1 [(1, 1)] true = (true, false) :=
  (snapshot_apply_idempotent 1 [(1, 1)] true).2 1 (by decide) (by decide)

/-- Claim C2: a snapshot that does not contain the device number leaves
`_attr_is_on` unchanged and produces no notification. -/
theorem snapshot_absent_no_change (dn : ℕ) (zones : List (ℕ × ℕ))
    (is_on : Bool) (h : zones.lookup dn = none) :
    devices_updated dn zones is_on = (is_on, false) := by
  simp [devices_updated, h]

/-- Witness for C2: device 5 is absent from the snapshot `{1: 1}`. -/
theorem snapshot_absent_no_change_witness :
    devices_updated 5 [(1, 1)] true = (true, false) :=
  snapshot_absent_no_change 5 [(1, 1)] true (by decide)

/-- Claim C3: under the reactive policy, a poll that yields an explicit
`None` or a timeout while no reading was ever stored disables polling,
permanently (every later sequence of outcomes leaves the state fixed and
no query is issued); a poll at a state holding a stored reading keeps
polling enabled whatever the outcome. -/
theorem reactive_disable_policy (s : BinarySensorState) (r : PollResult)
    (hp : s.should_poll = true) :
    (s.temperature = none → (r = .noReading ∨ r = .timeout) →
      (s.async_update r).should_poll = false ∧
      (∀ rs : List PollResult,
        rs.foldl BinarySensorState.async_update (s.async_update r) =
          s.async_update r) ∧
      (s.async_update r).async_update_queries = false) ∧
    ((∃ v, s.temperature = some v) →
      (s.async_update r).should_poll = true) := by
  constructor
  · intro ht hr
    have hoff : (s.async_update r).should_poll = false := by
      rcases hr with hr | hr <;> subst hr <;>
        simp [BinarySensorState.async_update, hp, ht]
    exact ⟨hoff, fun rs => (s.async_update r).foldl_of_disabled hoff rs,
      hoff⟩
  · rintro ⟨v, hv⟩
    cases r <;> simp [BinarySensorState.async_update, hp, hv]

/-- Witness for C3: a first-ever poll that times out at the initial state
disables polling, and the disabled state absorbs a further reading. -/
theorem reactive_disable_policy_witness :
    (BinarySensorState.init.async_update .timeout).should_poll = false ∧
    [PollResult.reading 21].foldl BinarySensorState.async_update
        (BinarySensorState.init.async_update .timeout) =
      BinarySensorState.init.async_update .timeout :=
  ⟨((reactive_disable_policy BinarySensorState.init .timeout rfl).1 rfl
      (Or.inr rfl)).1,
    ((reactive_disable_policy BinarySensorState.init .timeout rfl).1 rfl
      (Or.inr rfl)).2.1 [PollResult.reading 21]⟩

/-- Claim C10: invariant of the reactive policy.  From the initial state,
whenever polling has been turned off the stored temperature is still
`none`; once a reading is stored while polling, no later sequence of
outcomes ever disables polling; and a poll invoked while polling is
disabled issues no query and changes no state. -/
theorem reactive_invariant (rs : List PollResult) (r : PollResult) :
    ((rs.foldl BinarySensorState.async_update
        BinarySensorState.init).should_poll = false →
      (rs.foldl BinarySensorState.async_update
        BinarySensorState.init).temperature = none) ∧
    (∀ (s : BinarySensorState) (v : ℚ), s.should_poll = true →
      s.temperature = some v →
      ∀ rs2 : List PollResult,
        (rs2.foldl BinarySensorState.async_update s).should_poll = true) ∧
    (∀ s : BinarySensorState, s.should_poll = false →
      s.async_update r = s ∧ s.async_update_queries = false) := by
  refine ⟨?_, ?_, ?_⟩
  · exact BinarySensorState.foldl_invariant rs BinarySensorState.init
      (fun h => by simp [BinarySensorState.init] at h)
  · intro s v hp hv rs2
    exact ((BinarySensorState.foldl_keeps_polling rs2) s hp ⟨v, hv⟩).1
  · intro s h
    exact ⟨s.async_update_of_disabled r h, h⟩

/-- Witness for C10: after a first-poll timeout polling is off and the
temperature is `none`; a state with a stored reading keeps polling; the
disabled state is fixed under a further poll. -/
theorem reactive_invariant_witness :
    ([PollResult.timeout].foldl BinarySensorState.async_update
        BinarySensorState.init).temperature = none ∧
    ([PollResult.timeout, PollResult.noReading].foldl
        BinarySensorState.async_update ⟨true, some 21⟩).should_poll = true ∧
    BinarySensorState.async_update ⟨false, none⟩ (.reading 21) = ⟨false, none⟩ := by
  refine ⟨(reactive_invariant [PollResult.timeout] .timeout).1 (by decide),
    (reactive_invariant [] .timeout).2.1 ⟨true, some 21⟩ 21 rfl rfl
      [PollResult.timeout, PollResult.noReading], ?_⟩
  exact ((reactive_invariant [] (.reading 21)).2.2 ⟨false, none⟩ rfl).1

/-- Counterexample to claim C7: in the reactive polling path
(`SatelIntegraBinarySensor.async_update`), at the state with polling on
and no stored reading, a timeout disables polling while a transport error
leaves polling enabled — the two error kinds do not produce the same
state. -/
theorem timeout_error_not_identical :
    (BinarySensorState.async_update ⟨true, none⟩ .timeout).should_poll
      = false ∧
    (BinarySensorState.async_update ⟨true, none⟩ .error).should_poll
      = true := by
  exact ⟨rfl, rfl⟩

/-- Claim C7 as amended: a transport error is never fatal (it is caught
in every path) and is handled identically to a timeout in the
upfront-discovery sensor poll and in the discovery probe; in the reactive
path both are caught, but a transport error leaves the state unchanged
rather than disabling polling. -/
theorem transport_error_handling (s : TemperatureSensorState)
    (t : BinarySensorState) (z : ℕ) :
    s.async_update .timeout = s.async_update .error ∧
    test_zone_temperature z .timeout = test_zone_temperature z .error ∧
    t.async_update .error = t := by
  refine ⟨rfl, rfl, ?_⟩
  cases hp : t.should_poll <;> simp [BinarySensorState.async_update, hp]

/-- Claim C8: for a discovered temperature sensor, a poll timeout marks
the sensor unavailable and keeps its value, no outcome ever turns polling
off, and a subsequent successful poll restores availability with the new
reading. -/
theorem upfront_timeout_transient (s : TemperatureSensorState) (v : ℚ) :
    (s.async_update .timeout).available = false ∧
    (s.async_update .timeout).native_value = s.native_value ∧
    (∀ r : PollResult, (s.async_update r).should_poll = s.should_poll) ∧
    ((s.async_update .timeout).async_update (.reading v)).available = true ∧
    ((s.async_update .timeout).async_update (.reading v)).native_value
      = some v := by
  refine ⟨rfl, rfl, ?_, rfl, rfl⟩
  intro r
  cases r <;> rfl

/-- Counterexample to claim C9: at a discovered temperature sensor
holding the stored reading `21`, an explicit empty poll (`None` from the
controller) replaces the exposed value with `none` even though the sensor
is neither disabled (polling stays on) nor marked unavailable. -/
theorem none_reading_clears_value :
    (TemperatureSensorState.async_update ⟨some 21, true, true⟩
        .noReading).native_value = none ∧
    (TemperatureSensorState.async_update ⟨some 21, true, true⟩
        .noReading).available = true ∧
    (TemperatureSensorState.async_update ⟨some 21, true, true⟩
        .noReading).should_poll = true :=
  ⟨rfl, rfl, rfl⟩

/-- Claim C9 as amended: in the reactive path the stored reading survives
every outcome other than a new numeric reading; in the upfront-discovery
sensor a timeout and a transport error preserve the stored reading while
marking the sensor unavailable, but an explicit empty poll clears the
exposed value while the sensor stays available. -/
theorem last_reading_retained (t : BinarySensorState)
    (s : TemperatureSensorState) (r : PollResult)
    (h : r.isReading = false) :
    (t.async_update r).temperature = t.temperature ∧
    (s.async_update .timeout).native_value = s.native_value ∧
    (s.async_update .error).native_value = s.native_value ∧
    (s.async_update .noReading).native_value = none := by
  refine ⟨?_, rfl, rfl, rfl⟩
  cases hp : t.should_poll with
  | false => rw [t.async_update_of_disabled r hp]
  | true =>
    cases r with
    | reading v => simp [PollResult.isReading] at h
    | noReading =>
      by_cases ht : t.temperature = none <;>
        simp [BinarySensorState.async_update, hp, ht]
    | timeout =>
      by_cases ht : t.temperature = none <;>
        simp [BinarySensorState.async_update, hp, ht]
    | error => simp [BinarySensorState.async_update, hp]

/-- Witness for amended C9 at a stored reading and a timeout outcome. -/
theorem last_reading_retained_witness :
    (BinarySensorState.async_update ⟨true, some 21⟩ .timeout).temperature
      = some 21 ∧
    (TemperatureSensorState.async_update ⟨some 21, true, true⟩
        .noReading).native_value = none :=
  ⟨(last_reading_retained ⟨true, some 21⟩ ⟨some 21, true, true⟩ .timeout
      rfl).1,
    (last_reading_retained ⟨true, some 21⟩ ⟨some 21, true, true⟩ .timeout
      rfl).2.2.2⟩

/-- Claim C4: discovery yields exactly one capability outcome per zone,
each zone classified from its own probe outcome alone, and replacing the
outcome of any other probe (for instance by a raised exception, caught
inside the probe) neither aborts nor changes this zone's result. -/
theorem discovery_isolated (zs : List (ℕ × PollResult)) (i j : ℕ)
    (p : ℕ × PollResult) (hij : i ≠ j) :
    (discovery_results zs).length = zs.length ∧
    (discovery_results zs)[i]? =
      (zs[i]?).map (fun q => test_zone_temperature q.1 q.2) ∧
    (discovery_results (zs.set j p))[i]? = (discovery_results zs)[i]? := by
  refine ⟨List.length_map _ _, List.getElem?_map _ _ _, ?_⟩
  simp only [discovery_results, List.getElem?_map]
  rw [List.getElem?_set_ne hij.symm]

/-- Witness for C4: turning the second probe into an exception does not
change the result of the first. -/
theorem discovery_isolated_witness :
    (discovery_results (([(1, PollResult.reading 21),
        (2, PollResult.noReading)]).set 1 (2, PollResult.error)))[0]? =
      (discovery_results [(1, PollResult.reading 21),
        (2, PollResult.noReading)])[0]? :=
  (discovery_isolated [(1, .reading 21), (2, .noReading)] 0 1
    (2, .error) (by decide)).2.2

/-- Claim C5: a zone gets a temperature sensor exactly when its probe
returned a numeric reading; an explicit empty response, a timeout, and a
raised error each classify to no sensor, leaving the zone out of the
recurring-poll set. -/
theorem upfront_capable_only (zs : List (ℕ × PollResult)) (z : ℕ)
    (o : PollResult) (h : o.isReading = false) :
    (z ∈ temperature_sensors zs ↔
      ∃ v : ℚ, (z, PollResult.reading v) ∈ zs) ∧
    (∀ zn, test_zone_temperature zn o = none) := by
  constructor
  · unfold temperature_sensors discovery_results
    rw [List.filterMap_map]
    simp only [List.mem_filterMap]
    constructor
    · rintro ⟨⟨zn, o2⟩, hmem, hcl⟩
      cases o2 with
      | reading v =>
        simp only [Function.comp, test_zone_temperature, id,
          Option.some.injEq] at hcl
        subst hcl
        exact ⟨v, hmem⟩
      | noReading => simp [Function.comp, test_zone_temperature] at hcl
      | timeout => simp [Function.comp, test_zone_temperature] at hcl
      | error => simp [Function.comp, test_zone_temperature] at hcl
    · rintro ⟨v, hv⟩
      exact ⟨(z, .reading v), hv, rfl⟩
  · intro zn
    cases o with
    | reading v => simp [PollResult.isReading] at h
    | noReading => rfl
    | timeout => rfl
    | error => rfl

/-- Witness for C5: zone 1 (numeric reading) gets a sensor; a timeout
classifies to no sensor. -/
theorem upfront_capable_only_witness :
    1 ∈ temperature_sensors [(1, PollResult.reading 21),
      (2, PollResult.noReading), (3, PollResult.timeout)] ∧
    test_zone_temperature 3 PollResult.timeout = none :=
  ⟨(upfront_capable_only [(1, .reading 21), (2, .noReading),
      (3, .timeout)] 1 .timeout rfl).1.mpr ⟨21, by decide⟩,
    (upfront_capable_only [(1, .reading 21), (2, .noReading),
      (3, .timeout)] 3 .timeout rfl).2 3⟩

/-- Claim C6: the discovery delay list gives probe i the offset
i * stagger, so once each probe starts no earlier than its delay and the
gather finishes no earlier than any start, the total discovery duration
is at least (n - 1) * stagger. -/
theorem stagger_spacing (n : ℕ) (stagger : ℚ) (start : ℕ → ℚ) (total : ℚ)
    (hn : 0 < n)
    (hrelease : ∀ i, i < n → ∀ d,
      (discovery_delays n stagger)[i]? = some d → d ≤ start i)
    (hwait : ∀ i, i < n → start i ≤ total) :
    (∀ i, i < n →
      (discovery_delays n stagger)[i]? = some ((i : ℚ) * stagger)) ∧
    ((n : ℚ) - 1) * stagger ≤ total := by
  have hget : ∀ i, i < n →
      (discovery_delays n stagger)[i]? = some ((i : ℚ) * stagger) := by
    intro i hi
    rw [discovery_delays, List.getElem?_map, List.getElem?_range hi]
    rfl
  refine ⟨hget, ?_⟩
  have h1 : n - 1 < n := Nat.sub_lt hn one_pos
  have h2 := hrelease (n - 1) h1 _ (hget (n - 1) h1)
  have h3 := hwait (n - 1) h1
  have h1n : 1 ≤ n := hn
  have hcast : ((n - 1 : ℕ) : ℚ) * stagger = ((n : ℚ) - 1) * stagger := by
    rw [Nat.cast_sub h1n, Nat.cast_one]
  rw [← hcast]
  exact le_trans h2 h3

/-- Witness for C6 at three probes with stagger 1/20, all starts bounded
by 1/10. -/
theorem stagger_spacing_witness : ((3 : ℚ) - 1) * (1 / 20) ≤ (1 / 10 : ℚ) :=
  (stagger_spacing 3 (1 / 20) (fun _ => 1 / 10) (1 / 10) (by decide)
    (by
      intro i hi d hd
      have he : discovery_delays 3 (1 / 20) = [0, 1 / 20, 1 / 10] := by
        norm_num [discovery_delays, List.range_succ]
      rw [he] at hd
      interval_cases i <;> simp only [List.getElem?_cons_zero,
          List.getElem?_cons_succ, Option.some.injEq] at hd <;>
        rw [← hd] <;> norm_num)
    (fun i _ => le_refl _)).2

end SatelIntegra
